import Mathlib

/-!
Verification of the fertilizer recommendation engine (`src/recommender.py`,
`src/database.py`).  Numeric values are modelled over `ℚ`; Python operations
that can raise an exception (`ZeroDivisionError` at the crop-ratio and
cost-per-acre divisions, `IndexError` when indexing the first element of an
empty working set) are modelled with `Option`, `none` standing for the
uncaught exception.  The catalog store (SQLite) is modelled as in-memory
lists queried in row order.
-/

attribute [local semireducible] Rat.mul Rat.inv Rat.add Rat.sub

namespace FertilizerAI

/-- A row of the `crops` table; only the fields the engine reads. -/
structure Crop where
  crop_name : String
  nitrogen_requirement : ℚ
  phosphorus_requirement : ℚ
  potassium_requirement : ℚ
deriving DecidableEq, Inhabited

/-- A row of the `soils` table; the engine only echoes the type name. -/
structure Soil where
  soil_type : String
deriving DecidableEq, Inhabited

/-- A row of the `fertilizers` table; only the fields the engine reads. -/
structure Fertilizer where
  product_name : String
  nitrogen_content : ℚ
  phosphorus_content : ℚ
  potassium_content : ℚ
  price_per_kg : ℚ
  application_notes : String
deriving DecidableEq, Inhabited

/-- Characters of a string, uppercased (model of Python `str.upper()`). -/
def upperChars (s : String) : List Char := s.toList.map Char.toUpper

/-- Characters of a string, lowercased (model of SQLite `LOWER`). -/
def lowerChars (s : String) : List Char := s.toList.map Char.toLower

/-- `containsSeq needle hay`: does `needle` occur as a contiguous
subsequence of `hay`?  Model of Python `needle in hay` on strings. -/
def containsSeq : List Char → List Char → Bool
  | needle, [] => needle.isEmpty
  | needle, c :: rest => needle.isPrefixOf (c :: rest) || containsSeq needle rest

/-- `SELECT * FROM crops WHERE LOWER(crop_name) = LOWER(?)`, first row. -/
def get_crop_by_name (crops : List Crop) (crop_name : String) : Option Crop :=
  crops.find? (fun c => lowerChars c.crop_name == lowerChars crop_name)

/-- `SELECT * FROM soils WHERE LOWER(soil_type) = LOWER(?)`, first row. -/
def get_soil_by_type (soils : List Soil) (soil_type : String) : Option Soil :=
  soils.find? (fun s => lowerChars s.soil_type == lowerChars soil_type)

/-- `self.standard_rates`, in Python dict insertion order (recommender.py
lines 15-23). -/
def standard_rates : List (String × ℚ) :=
  [("DAP", 50), ("CAN", 50), ("NPK", 50), ("Urea", 50), ("TSP", 50),
   ("Manure", 2000), ("Compost", 2000)]

/-- `get_fertilizer_rate` (recommender.py lines 25-35): first keyword of
`standard_rates` occurring case-insensitively in the product name fixes the
per-acre rate, defaulting to 50; the result is `rate_per_acre * farm_size`. -/
def get_fertilizer_rate (fertilizer_name : String) (farm_size_acres : ℚ) : ℚ :=
  let rate_per_acre : ℚ :=
    match standard_rates.find?
        (fun kr => containsSeq (upperChars kr.1) (upperChars fertilizer_name)) with
    | some kr => kr.2
    | none => 50
  rate_per_acre * farm_size_acres

/-- Floor of a rational (used to model Python `round`). -/
def ratFloor (q : ℚ) : ℤ := Int.fdiv q.num q.den

/-- Round to the nearest integer, ties to even (Python `round` semantics,
idealized over exact rationals). -/
def roundHalfEven (q : ℚ) : ℤ :=
  let n := ratFloor q
  let frac := q - (n : ℚ)
  if frac < 1/2 then n
  else if 1/2 < frac then n + 1
  else if n % 2 = 0 then n else n + 1

/-- Python `round(q, 2)`. -/
def round2 (q : ℚ) : ℚ := (roundHalfEven (q * 100) : ℚ) / 100

/-- Python `round(q, 1)`. -/
def round1 (q : ℚ) : ℚ := (roundHalfEven (q * 10) : ℚ) / 10

/-- `score_fertilizer` (recommender.py lines 37-63).  The crop ratios are
computed with no guard in the source: when the crop's three requirements sum
to zero the Python code raises `ZeroDivisionError`, modelled here as `none`.
The fertilizer's total NPK is guarded (`if total_npk > 0`), and the budget
term is applied only when `budget_per_kg` is truthy (non-`None`, nonzero)
and the price exceeds it.  The result is floored at 0. -/
def score_fertilizer (crop : Crop) (fertilizer : Fertilizer)
    (budget_per_kg : Option ℚ) : Option ℚ :=
  let req_total := crop.nitrogen_requirement + crop.phosphorus_requirement +
    crop.potassium_requirement
  if req_total = 0 then
    none
  else
    let score : ℚ := 100
    let crop_n_ratio := crop.nitrogen_requirement / req_total
    let crop_p_ratio := crop.phosphorus_requirement / req_total
    let crop_k_ratio := crop.potassium_requirement / req_total
    let total_npk := fertilizer.nitrogen_content + fertilizer.phosphorus_content +
      fertilizer.potassium_content
    let score :=
      if 0 < total_npk then
        let fert_n_ratio := fertilizer.nitrogen_content / total_npk
        let fert_p_ratio := fertilizer.phosphorus_content / total_npk
        let fert_k_ratio := fertilizer.potassium_content / total_npk
        let ratio_diff := |crop_n_ratio - fert_n_ratio| + |crop_p_ratio - fert_p_ratio| +
          |crop_k_ratio - fert_k_ratio|
        let npk_penalty := ratio_diff * 30
        score - min npk_penalty 60
      else score
    let score :=
      match budget_per_kg with
      | some bpk =>
        if bpk ≠ 0 then
          if bpk < fertilizer.price_per_kg then
            let price_diff := fertilizer.price_per_kg - bpk
            let price_penalty := price_diff / bpk * 40
            score - min price_penalty 40
          else score
        else score
      | none => score
    some (max score 0)

/-- One scored candidate (the dict built at recommender.py lines 96-102). -/
structure Scored where
  fertilizer : Fertilizer
  score : ℚ
  application_rate_kg : ℚ
  total_cost : ℚ
  cost_per_acre : ℚ
deriving DecidableEq, Inhabited

/-- Loop body of recommender.py lines 88-102 for a single fertilizer.
`cost_per_acre` divides by `farm_size_acres`; a farm size of zero raises
`ZeroDivisionError` in the source, modelled as `none`. -/
def buildCandidate (crop : Crop) (budget_per_kg : Option ℚ) (farm_size_acres : ℚ)
    (fert : Fertilizer) : Option Scored :=
  let application_rate := get_fertilizer_rate fert.product_name farm_size_acres
  let total_cost := application_rate * fert.price_per_kg
  match score_fertilizer crop fert budget_per_kg with
  | none => none
  | some score =>
    if farm_size_acres = 0 then none
    else some { fertilizer := fert, score := score, application_rate_kg := application_rate,
                total_cost := round2 total_cost,
                cost_per_acre := round2 (total_cost / farm_size_acres) }

/-- Option-valued traversal of a list: the first failing element aborts the
whole computation, as an uncaught Python exception aborts the loop. -/
def mapOption (f : α → Option β) : List α → Option (List β)
  | [] => some []
  | a :: l => do
    let b ← f a
    let bs ← mapOption f l
    pure (b :: bs)

/-- Descending-score comparison used by the sort at recommender.py line 105. -/
def scoreGe (a b : Scored) : Prop := b.score ≤ a.score

instance : DecidableRel scoreGe := fun a b => inferInstanceAs (Decidable (b.score ≤ a.score))

instance : IsTotal Scored scoreGe := ⟨fun a b => le_total b.score a.score⟩

instance : IsTrans Scored scoreGe := ⟨fun _ _ _ h1 h2 => le_trans h2 h1⟩

/-- Ascending-cost comparison used by the fallback sort at line 114. -/
def costLe (a b : Scored) : Prop := a.total_cost ≤ b.total_cost

instance : DecidableRel costLe := fun a b => inferInstanceAs (Decidable (a.total_cost ≤ b.total_cost))

instance : IsTotal Scored costLe := ⟨fun a b => le_total a.total_cost b.total_cost⟩

instance : IsTrans Scored costLe := ⟨fun _ _ _ h1 h2 => le_trans h1 h2⟩

/-- `scored_fertilizers.sort(key=lambda x: x["score"], reverse=True)`:
Python `list.sort` is stable, so it is modelled by a stable insertion sort. -/
def sortByScoreDesc (l : List Scored) : List Scored := l.insertionSort scoreGe

/-- `scored_fertilizers.sort(key=lambda x: x["total_cost"])`, stable. -/
def sortByCostAsc (l : List Scored) : List Scored := l.insertionSort costLe

/-- Primary recommendation payload (recommender.py lines 129-139).  The
source formats `npk` as the string `"n-p-k"`; it is kept as the triple. -/
structure PrimaryRecommendation where
  fertilizer_name : String
  npk : ℚ × ℚ × ℚ
  quantity_kg : ℚ
  quantity_bags : ℚ
  total_cost : ℚ
  cost_per_acre : ℚ
  price_per_kg : ℚ
  score : ℚ
  application_notes : String
deriving DecidableEq, Inhabited

/-- Alternative payload (recommender.py lines 141-148). -/
structure Alternative where
  fertilizer_name : String
  npk : ℚ × ℚ × ℚ
  quantity_kg : ℚ
  total_cost : ℚ
  cost_per_acre : ℚ
deriving DecidableEq, Inhabited

/-- The response dict of recommender.py lines 124-151. -/
structure Recommendation where
  crop : String
  soil : String
  farm_size_acres : ℚ
  budget_total : Option ℚ
  primary_recommendation : PrimaryRecommendation
  alternatives : List Alternative
  within_budget : Bool
deriving DecidableEq, Inhabited

/-- Outcome of `get_recommendation`: either the error dict (`{"error": ...}`)
or the full recommendation dict. -/
inductive RecResult where
  | err (msg : String)
  | ok (rec : Recommendation)
deriving DecidableEq, Inhabited

/-- Budget-per-kg derivation (recommender.py lines 81-84): only when both
`budget_total` and `farm_size_acres` are truthy. -/
def budget_per_kg_of (budget_total : Option ℚ) (farm_size_acres : ℚ) : Option ℚ :=
  match budget_total with
  | some b => if b ≠ 0 ∧ farm_size_acres ≠ 0 then some (b / (50 * farm_size_acres)) else none
  | none => none

/-- Budget filter (recommender.py lines 108-110): applied only when
`budget_total` is truthy. -/
def affordableOf (sorted_by_score : List Scored) (budget_total : Option ℚ) : List Scored :=
  match budget_total with
  | some budget =>
    if budget ≠ 0 then sorted_by_score.filter (fun f => decide (f.total_cost ≤ budget))
    else sorted_by_score
  | none => sorted_by_score

/-- Fields of the primary recommendation (recommender.py lines 129-139). -/
def mkPrimary (top_choice : Scored) : PrimaryRecommendation :=
  { fertilizer_name := top_choice.fertilizer.product_name
    npk := (top_choice.fertilizer.nitrogen_content, top_choice.fertilizer.phosphorus_content,
      top_choice.fertilizer.potassium_content)
    quantity_kg := top_choice.application_rate_kg
    quantity_bags := round1 (top_choice.application_rate_kg / 50)
    total_cost := top_choice.total_cost
    cost_per_acre := top_choice.cost_per_acre
    price_per_kg := top_choice.fertilizer.price_per_kg
    score := round1 top_choice.score
    application_notes := top_choice.fertilizer.application_notes }

/-- Fields of one alternative (recommender.py lines 141-148). -/
def mkAlternative (alt : Scored) : Alternative :=
  { fertilizer_name := alt.fertilizer.product_name
    npk := (alt.fertilizer.nitrogen_content, alt.fertilizer.phosphorus_content,
      alt.fertilizer.potassium_content)
    quantity_kg := alt.application_rate_kg
    total_cost := alt.total_cost
    cost_per_acre := alt.cost_per_acre }

/-- Ranking, filtering and response assembly (recommender.py lines 104-151).
In the fallback path the source re-sorts `scored_fertilizers` in place by
total cost, so the slice feeding the alternatives (line 121) is the
cost-sorted list there; selecting `affordable[0]` from an empty working set
raises `IndexError`, modelled as `none`. -/
def assemble (crop : Crop) (soil : Soil) (farm_size_acres : ℚ) (budget_total : Option ℚ)
    (scored_fertilizers : List Scored) : Option RecResult :=
  let sorted_by_score := sortByScoreDesc scored_fertilizers
  let affordable := affordableOf sorted_by_score budget_total
  let fallback := affordable.isEmpty
  let by_cost := sortByCostAsc sorted_by_score
  let working := if fallback then by_cost.take 3 else affordable
  let full_list := if fallback then by_cost else sorted_by_score
  match working.head? with
  | none => none
  | some top_choice =>
    some (.ok
      { crop := crop.crop_name
        soil := soil.soil_type
        farm_size_acres := farm_size_acres
        budget_total := budget_total
        primary_recommendation := mkPrimary top_choice
        alternatives :=
          (if working.length > 1 then (working.drop 1).take 3
           else (full_list.drop 1).take 3).map mkAlternative
        within_budget :=
          match budget_total with
          | some budget => if budget ≠ 0 then decide (top_choice.total_cost ≤ budget) else true
          | none => true })

/-- `get_recommendation` (recommender.py lines 65-151): crop and soil lookup
with early error returns, budget-per-kg derivation, per-fertilizer scoring
loop, then ranking and assembly. -/
def get_recommendation (crops : List Crop) (soils : List Soil) (fertilizers : List Fertilizer)
    (crop_name : String) (soil_type : String) (farm_size_acres : ℚ)
    (budget_total : Option ℚ) : Option RecResult :=
  match get_crop_by_name crops crop_name with
  | none => some (.err ("Crop " ++ crop_name ++ " not found"))
  | some crop =>
    match get_soil_by_type soils soil_type with
    | none => some (.err ("Soil " ++ soil_type ++ " not found"))
    | some soil =>
      match mapOption
          (buildCandidate crop (budget_per_kg_of budget_total farm_size_acres) farm_size_acres)
          fertilizers with
      | none => none
      | some scored_fertilizers => assemble crop soil farm_size_acres budget_total scored_fertilizers

/-- Rate table as worded by the spec (§4.1): scan DAP, CAN, NPK, Urea, TSP,
Manure, Compost in this order; the first keyword found as a case-insensitive
substring of the product name fixes the kg/acre rate (50 for the first five,
2000 for the organic two); no match defaults to 50. -/
def specRatePerAcre (product_name : String) : ℚ :=
  if containsSeq (upperChars "DAP") (upperChars product_name) then 50
  else if containsSeq (upperChars "CAN") (upperChars product_name) then 50
  else if containsSeq (upperChars "NPK") (upperChars product_name) then 50
  else if containsSeq (upperChars "Urea") (upperChars product_name) then 50
  else if containsSeq (upperChars "TSP") (upperChars product_name) then 50
  else if containsSeq (upperChars "Manure") (upperChars product_name) then 2000
  else if containsSeq (upperChars "Compost") (upperChars product_name) then 2000
  else 50

/-- Extract the recommendation from an `ok` outcome (default elsewhere);
used to state concrete witnesses. -/
def okOf : Option RecResult → Recommendation
  | some (.ok r) => r
  | _ => default

/-- Sample catalog rows used for concrete witnesses. -/
def demoCrop : Crop := ⟨"Maize", 10, 5, 5⟩

def demoSoil : Soil := ⟨"Loam"⟩

def demoFert : Fertilizer := ⟨"NPK 20-10-10", 20, 10, 10, 1, "Apply at planting"⟩

def demoCrops : List Crop := [demoCrop]

def demoSoils : List Soil := [demoSoil]

def demoFerts : List Fertilizer := [demoFert]

example : get_fertilizer_rate "DAP (Di-ammonium Phosphate)" 2 = 100 := by decide

example : get_fertilizer_rate "Well-rotted Manure" 2 = 4000 := by decide

example : get_fertilizer_rate "Mystery Blend" 3 = 150 := by decide

example : score_fertilizer demoCrop demoFert none = some 100 := by decide

example :
    get_recommendation demoCrops demoSoils demoFerts "Maize" "Loam" 2 none =
      some (.ok
        { crop := "Maize", soil := "Loam", farm_size_acres := 2, budget_total := none
          primary_recommendation :=
            { fertilizer_name := "NPK 20-10-10", npk := (20, 10, 10), quantity_kg := 100
              quantity_bags := 2, total_cost := 100, cost_per_acre := 50, price_per_kg := 1
              score := 100, application_notes := "Apply at planting" }
          alternatives := [], within_budget := true }) := by decide

/-- A sample scored candidate for concrete witnesses. -/
def demoScored : Scored :=
  { fertilizer := demoFert, score := 100, application_rate_kg := 100, total_cost := 100,
    cost_per_acre := 50 }

/-- A full engine run on the sample catalog, used by concrete witnesses. -/
def demoRun : Option RecResult :=
  get_recommendation demoCrops demoSoils demoFerts "Maize" "Loam" 2 none

/-- A run whose budget (1) no candidate can meet (the only candidate costs
100), used to witness the fallback path. -/
def demoRunTightBudget : Option RecResult :=
  get_recommendation demoCrops demoSoils demoFerts "Maize" "Loam" 2 (some 1)

/-- A run with a negative farm size, used to witness degenerate-input
propagation. -/
def demoRunNegativeFarm : Option RecResult :=
  get_recommendation demoCrops demoSoils demoFerts "Maize" "Loam" (-1) none

/-! ### Helper lemmas -/

theorem length_filter_le_of_imp {p q : α → Bool} (l : List α) (h : ∀ a, p a → q a) :
    (l.filter p).length ≤ (l.filter q).length :=
  (List.monotone_filter_right l h).length_le

theorem filter_score_orderedInsert (s : ℚ) (a : Scored) (l : List Scored) :
    (l.orderedInsert scoreGe a).filter (fun x => decide (x.score = s)) =
      if a.score = s then a :: l.filter (fun x => decide (x.score = s))
      else l.filter (fun x => decide (x.score = s)) := by
  induction l with
  | nil => by_cases h : a.score = s <;> simp [List.orderedInsert, h]
  | cons b t ih =>
    by_cases hab : scoreGe a b
    · by_cases h : a.score = s <;> simp [List.orderedInsert, hab, h]
    · have hba : a.score < b.score := lt_of_not_le hab
      by_cases h : a.score = s
      · have hbs : ¬ (b.score = s) := by
          intro hb
          rw [h] at hba
          rw [hb] at hba
          exact lt_irrefl s hba
        simp [List.orderedInsert, hab, ih, h, hbs]
      · by_cases hb : b.score = s <;> simp [List.orderedInsert, hab, ih, h, hb]

theorem mapOption_cons (f : α → Option β) (a : α) (l : List α) :
    mapOption f (a :: l) =
      (f a).bind (fun b => (mapOption f l).bind (fun bs => some (b :: bs))) := rfl

theorem mapOption_isSome (f : α → Option β) (l : List α) (h : ∀ a ∈ l, (f a).isSome) :
    ∃ L, mapOption f l = some L := by
  induction l with
  | nil => exact ⟨[], rfl⟩
  | cons a t ih =>
    obtain ⟨b, hb⟩ := Option.isSome_iff_exists.mp (h a (List.mem_cons_self a t))
    obtain ⟨L, hL⟩ := ih (fun x hx => h x (List.mem_cons_of_mem a hx))
    exact ⟨b :: L, by rw [mapOption_cons, hb, hL]; rfl⟩

theorem exists_src_of_mem_mapOption (f : α → Option β) {l : List α} {L : List β}
    (h : mapOption f l = some L) {x : β} (hx : x ∈ L) : ∃ a ∈ l, f a = some x := by
  induction l generalizing L with
  | nil =>
    simp only [mapOption] at h
    rw [← Option.some_inj.mp h] at hx
    exact absurd hx (List.not_mem_nil x)
  | cons a t ih =>
    rw [mapOption_cons] at h
    cases hfa : f a with
    | none => simp [hfa] at h
    | some b =>
      cases hmt : mapOption f t with
      | none => simp [hfa, hmt] at h
      | some Lt =>
        simp only [hfa, hmt, Option.some_bind] at h
        rw [← Option.some_inj.mp h] at hx
        rcases List.mem_cons.mp hx with hxb | hxt
        · exact ⟨a, List.mem_cons_self a t, by rw [hfa, hxb]⟩
        · obtain ⟨a', ha', hfa'⟩ := ih hmt hxt
          exact ⟨a', List.mem_cons_of_mem a ha', hfa'⟩

theorem exists_tgt_of_mem_mapOption (f : α → Option β) {l : List α} {L : List β}
    (h : mapOption f l = some L) {a : α} (ha : a ∈ l) : ∃ x ∈ L, f a = some x := by
  induction l generalizing L with
  | nil => exact absurd ha (List.not_mem_nil a)
  | cons c t ih =>
    rw [mapOption_cons] at h
    cases hfc : f c with
    | none => simp [hfc] at h
    | some b =>
      cases hmt : mapOption f t with
      | none => simp [hfc, hmt] at h
      | some Lt =>
        simp only [hfc, hmt, Option.some_bind] at h
        rw [← Option.some_inj.mp h]
        rcases List.mem_cons.mp ha with hac | hat
        · exact ⟨b, List.mem_cons_self b Lt, by rw [hac, hfc]⟩
        · obtain ⟨x, hx, hfx⟩ := ih hmt hat
          exact ⟨x, List.mem_cons_of_mem b hx, hfx⟩

theorem score_fertilizer_isSome (crop : Crop) (fert : Fertilizer) (bpk : Option ℚ)
    (hreq : crop.nitrogen_requirement + crop.phosphorus_requirement +
      crop.potassium_requirement ≠ 0) :
    ∃ s, score_fertilizer crop fert bpk = some s := by
  simp only [score_fertilizer]
  rw [if_neg hreq]
  exact ⟨_, rfl⟩

theorem buildCandidate_fields {crop : Crop} {bpk : Option ℚ} {farm : ℚ} {fert : Fertilizer}
    {x : Scored} (h : buildCandidate crop bpk farm fert = some x) :
    x.fertilizer = fert ∧
    x.application_rate_kg = get_fertilizer_rate fert.product_name farm ∧
    x.total_cost = round2 (get_fertilizer_rate fert.product_name farm * fert.price_per_kg) := by
  simp only [buildCandidate] at h
  cases hs : score_fertilizer crop fert bpk with
  | none => simp [hs] at h
  | some sc =>
    simp only [hs] at h
    by_cases hf : farm = 0
    · rw [if_pos hf] at h; exact absurd h (by simp)
    · rw [if_neg hf] at h
      rw [← Option.some_inj.mp h]
      exact ⟨rfl, rfl, rfl⟩

theorem buildCandidate_isSome (crop : Crop) (bpk : Option ℚ) (farm : ℚ) (fert : Fertilizer)
    (hreq : crop.nitrogen_requirement + crop.phosphorus_requirement +
      crop.potassium_requirement ≠ 0)
    (hfarm : farm ≠ 0) : ∃ x, buildCandidate crop bpk farm fert = some x := by
  obtain ⟨s, hs⟩ := score_fertilizer_isSome crop fert bpk hreq
  simp only [buildCandidate, hs]
  rw [if_neg hfarm]
  exact ⟨_, rfl⟩

theorem mem_of_head? {l : List α} {a : α} (h : l.head? = some a) : a ∈ l := by
  cases l with
  | nil => exact absurd h (by simp)
  | cons b t =>
    simp only [List.head?_cons, Option.some_inj] at h
    rw [← h]
    exact List.mem_cons_self b t

theorem head?_take_three (l : List α) : (l.take 3).head? = l.head? := by
  cases l <;> rfl

theorem head?_sortByCostAsc_min {L : List Scored} {top : Scored}
    (h : (sortByCostAsc L).head? = some top) {x : Scored} (hx : x ∈ L) :
    top.total_cost ≤ x.total_cost := by
  have hsorted : List.Sorted costLe (sortByCostAsc L) := List.sorted_insertionSort costLe L
  have hx' : x ∈ sortByCostAsc L := by
    unfold sortByCostAsc
    rw [List.mem_insertionSort]
    exact hx
  cases hsc : sortByCostAsc L with
  | nil => rw [hsc] at h; exact absurd h (by simp)
  | cons a t =>
    rw [hsc] at h hx' hsorted
    simp only [List.head?_cons, Option.some_inj] at h
    rw [List.sorted_cons] at hsorted
    rcases List.mem_cons.mp hx' with hxa | hxt
    · rw [← h, hxa]
    · rw [← h]
      exact hsorted.1 x hxt

theorem mem_of_mem_affordableOf {x : Scored} {l : List Scored} {b : Option ℚ}
    (h : x ∈ affordableOf l b) : x ∈ l := by
  cases b with
  | none => simpa [affordableOf] using h
  | some bb =>
    simp only [affordableOf] at h
    by_cases hbb : bb ≠ 0
    · rw [if_pos hbb] at h
      exact (List.mem_filter.mp h).1
    · rw [if_neg hbb] at h
      exact h

theorem assemble_ok_top {crop : Crop} {soil : Soil} {farm : ℚ} {budget : Option ℚ}
    {L : List Scored} {r : Recommendation}
    (h : assemble crop soil farm budget L = some (.ok r)) :
    ∃ top, top ∈ L ∧ r.primary_recommendation = mkPrimary top ∧ r.farm_size_acres = farm := by
  simp only [assemble] at h
  split at h
  · exact absurd h (by simp)
  next top heq =>
    have htopW := mem_of_head? heq
    have htopL : top ∈ L := by
      split at htopW
      · exact (List.perm_insertionSort scoreGe L).subset
          ((List.perm_insertionSort costLe _).subset (List.mem_of_mem_take htopW))
      · exact (List.perm_insertionSort scoreGe L).subset (mem_of_mem_affordableOf htopW)
    have hr := RecResult.ok.inj (Option.some_inj.mp h)
    exact ⟨top, htopL, by rw [← hr], by rw [← hr]⟩

/-! ### Claim theorems -/

/-- C1: a crop whose three nutrient requirements sum to zero does NOT get a
fallback score — the source divides by the zero sum when forming the crop
ratios (recommender.py lines 42-44) and raises `ZeroDivisionError`, modelled
as `none`.  This evaluates the scorer at such a failing input. -/
theorem zero_requirement_crop_division_fault :
    score_fertilizer ⟨"ZeroCrop", 0, 0, 0⟩ demoFert none = none := by decide

/-- C4: whenever the scorer returns a value (and the optional budget ceiling
is positive when present), that value lies in [0, 100]: the nutrient-ratio
penalty is capped at 60, the one-sided budget penalty at 40, and the result
is floored at 0. -/
theorem score_within_unit_range (crop : Crop) (fertilizer : Fertilizer)
    (budget_per_kg : Option ℚ) (s : ℚ)
    (hpos : ∀ b, budget_per_kg = some b → 0 < b)
    (h : score_fertilizer crop fertilizer budget_per_kg = some s) :
    0 ≤ s ∧ s ≤ 100 := by
  simp only [score_fertilizer] at h
  by_cases hreq : crop.nitrogen_requirement + crop.phosphorus_requirement +
    crop.potassium_requirement = 0
  · rw [if_pos hreq] at h
    exact absurd h (by simp)
  · rw [if_neg hreq] at h
    cases hb : budget_per_kg with
    | none =>
      rw [hb] at h
      simp only at h
      rw [← Option.some_inj.mp h]
      constructor
      · exact le_max_right _ _
      · refine max_le ?_ (by norm_num)
        split_ifs with hnpk
        · have h60 : 0 ≤ min ((|crop.nitrogen_requirement / (crop.nitrogen_requirement +
            crop.phosphorus_requirement + crop.potassium_requirement) -
            fertilizer.nitrogen_content / (fertilizer.nitrogen_content +
            fertilizer.phosphorus_content + fertilizer.potassium_content)| +
            |crop.phosphorus_requirement / (crop.nitrogen_requirement +
            crop.phosphorus_requirement + crop.potassium_requirement) -
            fertilizer.phosphorus_content / (fertilizer.nitrogen_content +
            fertilizer.phosphorus_content + fertilizer.potassium_content)| +
            |crop.potassium_requirement / (crop.nitrogen_requirement +
            crop.phosphorus_requirement + crop.potassium_requirement) -
            fertilizer.potassium_content / (fertilizer.nitrogen_content +
            fertilizer.phosphorus_content + fertilizer.potassium_content)|) * 30) 60 :=
            le_min (by positivity) (by norm_num)
          linarith
        · norm_num
    | some bpk =>
      have hbpos : 0 < bpk := hpos bpk hb
      rw [hb] at h
      simp only at h
      rw [if_pos (ne_of_gt hbpos)] at h
      by_cases hprice : bpk < fertilizer.price_per_kg
      · rw [if_pos hprice] at h
        rw [← Option.some_inj.mp h]
        have hpen : 0 ≤ min ((fertilizer.price_per_kg - bpk) / bpk * 40) 40 :=
          le_min (le_of_lt (mul_pos (div_pos (sub_pos.mpr hprice) hbpos) (by norm_num)))
            (by norm_num)
        have hpen40 : min ((fertilizer.price_per_kg - bpk) / bpk * 40) 40 ≤ 40 :=
          min_le_right _ _
        constructor
        · exact le_max_right _ _
        · refine max_le ?_ (by norm_num)
          split_ifs with hnpk
          · have h60 : 0 ≤ min ((|crop.nitrogen_requirement / (crop.nitrogen_requirement +
              crop.phosphorus_requirement + crop.potassium_requirement) -
              fertilizer.nitrogen_content / (fertilizer.nitrogen_content +
              fertilizer.phosphorus_content + fertilizer.potassium_content)| +
              |crop.phosphorus_requirement / (crop.nitrogen_requirement +
              crop.phosphorus_requirement + crop.potassium_requirement) -
              fertilizer.phosphorus_content / (fertilizer.nitrogen_content +
              fertilizer.phosphorus_content + fertilizer.potassium_content)| +
              |crop.potassium_requirement / (crop.nitrogen_requirement +
              crop.phosphorus_requirement + crop.potassium_requirement) -
              fertilizer.potassium_content / (fertilizer.nitrogen_content +
              fertilizer.phosphorus_content + fertilizer.potassium_content)|) * 30) 60 :=
              le_min (by positivity) (by norm_num)
            linarith
          · linarith
      · rw [if_neg hprice] at h
        rw [← Option.some_inj.mp h]
        constructor
        · exact le_max_right _ _
        · refine max_le ?_ (by norm_num)
          split_ifs with hnpk
          · have h60 : 0 ≤ min ((|crop.nitrogen_requirement / (crop.nitrogen_requirement +
              crop.phosphorus_requirement + crop.potassium_requirement) -
              fertilizer.nitrogen_content / (fertilizer.nitrogen_content +
              fertilizer.phosphorus_content + fertilizer.potassium_content)| +
              |crop.phosphorus_requirement / (crop.nitrogen_requirement +
              crop.phosphorus_requirement + crop.potassium_requirement) -
              fertilizer.phosphorus_content / (fertilizer.nitrogen_content +
              fertilizer.phosphorus_content + fertilizer.potassium_content)| +
              |crop.potassium_requirement / (crop.nitrogen_requirement +
              crop.phosphorus_requirement + crop.potassium_requirement) -
              fertilizer.potassium_content / (fertilizer.nitrogen_content +
              fertilizer.phosphorus_content + fertilizer.potassium_content)|) * 30) 60 :=
              le_min (by positivity) (by norm_num)
            linarith
          · norm_num

/-- Concrete instantiation of `score_within_unit_range`: a matched-ratio
fertilizer priced above the ceiling scores 60 ∈ [0, 100]. -/
theorem score_within_unit_range_witness :
    (∀ b : ℚ, some (1/2 : ℚ) = some b → 0 < b) ∧
      score_fertilizer demoCrop demoFert (some (1/2)) = some 60 ∧
      (0 : ℚ) ≤ 60 ∧ (60 : ℚ) ≤ 100 :=
  ⟨fun b hb => by rw [← Option.some_inj.mp hb]; norm_num,
    by decide,
    score_within_unit_range demoCrop demoFert (some (1/2)) 60
      (fun b hb => by rw [← Option.some_inj.mp hb]; norm_num) (by decide)⟩

/-- C2: for every product name and farm size, `get_fertilizer_rate` scans
the keyword table in the fixed order DAP, CAN, NPK, Urea, TSP, Manure,
Compost, takes the rate of the first case-insensitive substring match
(50 for the first five keywords, 2000 for Manure and Compost), defaults to
50 kg/acre otherwise, and returns exactly `rate_per_acre * farm_size`. -/
theorem rate_resolver_matches_spec (fertilizer_name : String) (farm_size_acres : ℚ) :
    get_fertilizer_rate fertilizer_name farm_size_acres =
      specRatePerAcre fertilizer_name * farm_size_acres := by
  unfold get_fertilizer_rate specRatePerAcre standard_rates
  cases h1 : containsSeq (upperChars "DAP") (upperChars fertilizer_name) <;>
    cases h2 : containsSeq (upperChars "CAN") (upperChars fertilizer_name) <;>
    cases h3 : containsSeq (upperChars "NPK") (upperChars fertilizer_name) <;>
    cases h4 : containsSeq (upperChars "Urea") (upperChars fertilizer_name) <;>
    cases h5 : containsSeq (upperChars "TSP") (upperChars fertilizer_name) <;>
    cases h6 : containsSeq (upperChars "Manure") (upperChars fertilizer_name) <;>
    cases h7 : containsSeq (upperChars "Compost") (upperChars fertilizer_name) <;>
    simp [List.find?, h1, h2, h3, h4, h5, h6, h7]

/-- C7: the score-descending ranking is stable — filtering the ranked list
to any fixed score value yields the candidates in their original catalog
order, so equal-score candidates are never reordered. -/
theorem equal_scores_keep_catalog_order (L : List Scored) (s : ℚ) :
    (sortByScoreDesc L).filter (fun x => decide (x.score = s)) =
      L.filter (fun x => decide (x.score = s)) := by
  induction L with
  | nil => rfl
  | cons a t ih =>
    show ((List.insertionSort scoreGe t).orderedInsert scoreGe a).filter _ = _
    rw [filter_score_orderedInsert]
    by_cases h : a.score = s
    · simp only [h, if_pos rfl]
      rw [show List.insertionSort scoreGe t = sortByScoreDesc t from rfl, ih]
      simp [h]
    · simp only [h, if_neg h]
      rw [show List.insertionSort scoreGe t = sortByScoreDesc t from rfl, ih]
      simp [h]

/-- C6: when the crop name (or, with the crop resolved, the soil type) has
no catalog match, `get_recommendation` returns the structured error dict —
an outcome distinct from every `ok` result, carrying only the message and
no recommendation fields — and the pipeline goes no further. -/
theorem unknown_crop_or_soil_yields_error (crops : List Crop) (soils : List Soil)
    (fertilizers : List Fertilizer) (crop_name soil_type : String)
    (farm_size_acres : ℚ) (budget_total : Option ℚ) :
    (get_crop_by_name crops crop_name = none →
      get_recommendation crops soils fertilizers crop_name soil_type farm_size_acres
        budget_total = some (.err ("Crop " ++ crop_name ++ " not found"))) ∧
    (∀ crop, get_crop_by_name crops crop_name = some crop →
      get_soil_by_type soils soil_type = none →
      get_recommendation crops soils fertilizers crop_name soil_type farm_size_acres
        budget_total = some (.err ("Soil " ++ soil_type ++ " not found"))) := by
  constructor
  · intro h
    simp only [get_recommendation, h]
  · intro crop hc hs
    simp only [get_recommendation, hc, hs]

/-- Concrete instantiation of `unknown_crop_or_soil_yields_error`: the spec
scenario of an unknown crop "Rice". -/
theorem unknown_crop_witness :
    get_crop_by_name demoCrops "Rice" = none ∧
      get_recommendation demoCrops demoSoils demoFerts "Rice" "Loam" 2 none =
        some (.err "Crop Rice not found") := by
  refine ⟨by decide, ?_⟩
  exact (unknown_crop_or_soil_yields_error demoCrops demoSoils demoFerts "Rice" "Loam"
    2 none).1 (by decide)

/-- C10: with crop and soil resolved but an empty fertilizer catalog, the
working set stays empty on both the filtered and the fallback path, so
selecting `affordable[0]` raises `IndexError` — the engine yields no
result (`none`), neither an error dict nor a recommendation. -/
theorem empty_catalog_no_result (crops : List Crop) (soils : List Soil)
    (crop_name soil_type : String) (farm_size_acres : ℚ) (budget_total : Option ℚ)
    (crop : Crop) (soil : Soil)
    (hc : get_crop_by_name crops crop_name = some crop)
    (hs : get_soil_by_type soils soil_type = some soil) :
    get_recommendation crops soils [] crop_name soil_type farm_size_acres budget_total =
      none := by
  simp only [get_recommendation, hc, hs]
  show assemble crop soil farm_size_acres budget_total [] = none
  simp only [assemble, sortByScoreDesc, sortByCostAsc, List.insertionSort, affordableOf]
  cases budget_total with
  | none => simp
  | some b => by_cases hb : b ≠ 0 <;> simp [hb]

/-- Concrete instantiation of `empty_catalog_no_result`. -/
theorem empty_catalog_no_result_witness :
    get_crop_by_name demoCrops "Maize" = some demoCrop ∧
      get_soil_by_type demoSoils "Loam" = some demoSoil ∧
      get_recommendation demoCrops demoSoils [] "Maize" "Loam" 2 none = none :=
  ⟨by decide, by decide,
    empty_catalog_no_result demoCrops demoSoils "Maize" "Loam" 2 none demoCrop demoSoil
      (by decide) (by decide)⟩

/-- C8: with a positive budget, raising the total budget never shrinks the
budget-filtered affordable candidate set. -/
theorem budget_filter_monotone (sorted_by_score : List Scored) (b₁ b₂ : ℚ)
    (hpos : 0 < b₁) (hle : b₁ ≤ b₂) :
    (affordableOf sorted_by_score (some b₁)).length ≤
      (affordableOf sorted_by_score (some b₂)).length := by
  have h1 : b₁ ≠ 0 := ne_of_gt hpos
  have h2 : b₂ ≠ 0 := ne_of_gt (lt_of_lt_of_le hpos hle)
  simp only [affordableOf]
  rw [if_pos h1, if_pos h2]
  refine length_filter_le_of_imp _ (fun f hf => ?_)
  simp only [decide_eq_true_eq] at hf ⊢
  exact le_trans hf hle

/-- Concrete instantiation of `budget_filter_monotone`. -/
theorem budget_filter_monotone_witness :
    (0 : ℚ) < 1 ∧ (1 : ℚ) ≤ 200 ∧
      (affordableOf [demoScored] (some 1)).length ≤
        (affordableOf [demoScored] (some 200)).length :=
  ⟨by norm_num, by norm_num,
    budget_filter_monotone [demoScored] 1 200 (by norm_num) (by norm_num)⟩

/-- C9: every successful recommendation round-trips through the rate
resolver — applying `get_fertilizer_rate` to the primary recommendation's
fertilizer name and the echoed farm size reproduces exactly its
`quantity_kg`. -/
theorem primary_quantity_roundtrip (crops : List Crop) (soils : List Soil)
    (fertilizers : List Fertilizer) (crop_name soil_type : String) (farm_size_acres : ℚ)
    (budget_total : Option ℚ) (r : Recommendation)
    (h : get_recommendation crops soils fertilizers crop_name soil_type farm_size_acres
      budget_total = some (.ok r)) :
    get_fertilizer_rate r.primary_recommendation.fertilizer_name r.farm_size_acres =
      r.primary_recommendation.quantity_kg := by
  simp only [get_recommendation] at h
  cases hc : get_crop_by_name crops crop_name with
  | none => simp [hc] at h
  | some crop =>
    simp only [hc] at h
    cases hso : get_soil_by_type soils soil_type with
    | none => simp [hso] at h
    | some soil =>
      simp only [hso] at h
      cases hmap : mapOption
          (buildCandidate crop (budget_per_kg_of budget_total farm_size_acres) farm_size_acres)
          fertilizers with
      | none => simp [hmap] at h
      | some L =>
        simp only [hmap] at h
        obtain ⟨top, htopL, hprim, hfarm⟩ := assemble_ok_top h
        obtain ⟨fert, hfert, hbc⟩ := exists_src_of_mem_mapOption _ hmap htopL
        obtain ⟨hf1, hf2, -⟩ := buildCandidate_fields hbc
        rw [hprim, hfarm]
        show get_fertilizer_rate top.fertilizer.product_name farm_size_acres =
          top.application_rate_kg
        rw [hf1, hf2]

/-- Concrete instantiation of `primary_quantity_roundtrip` on the sample
catalog. -/
theorem primary_quantity_roundtrip_witness :
    demoRun = some (.ok (okOf demoRun)) ∧
      get_fertilizer_rate (okOf demoRun).primary_recommendation.fertilizer_name
        (okOf demoRun).farm_size_acres = (okOf demoRun).primary_recommendation.quantity_kg :=
  ⟨by decide,
    primary_quantity_roundtrip demoCrops demoSoils demoFerts "Maize" "Loam" 2 none
      (okOf demoRun) (by decide)⟩

/-- C3: with a (truthy) total budget that no candidate's total cost meets,
a returned primary recommendation has the minimum total cost among all
candidates in the catalog — the fallback re-sorts the whole candidate set
by cost ascending and takes its cheapest element, regardless of score. -/
theorem unaffordable_fallback_picks_cheapest (crops : List Crop) (soils : List Soil)
    (fertilizers : List Fertilizer) (crop_name soil_type : String) (farm_size_acres : ℚ)
    (b : ℚ) (hb : b ≠ 0)
    (hnone : ∀ fert ∈ fertilizers,
      ¬ (round2 (get_fertilizer_rate fert.product_name farm_size_acres *
        fert.price_per_kg) ≤ b))
    (r : Recommendation)
    (h : get_recommendation crops soils fertilizers crop_name soil_type farm_size_acres
      (some b) = some (.ok r)) :
    ∀ fert ∈ fertilizers,
      r.primary_recommendation.total_cost ≤
        round2 (get_fertilizer_rate fert.product_name farm_size_acres * fert.price_per_kg) := by
  simp only [get_recommendation] at h
  cases hc : get_crop_by_name crops crop_name with
  | none => simp [hc] at h
  | some crop =>
    simp only [hc] at h
    cases hso : get_soil_by_type soils soil_type with
    | none => simp [hso] at h
    | some soil =>
      simp only [hso] at h
      cases hmap : mapOption
          (buildCandidate crop (budget_per_kg_of (some b) farm_size_acres) farm_size_acres)
          fertilizers with
      | none => simp [hmap] at h
      | some L =>
        simp only [hmap] at h
        have hLcost : ∀ x ∈ L, ¬ (x.total_cost ≤ b) := by
          intro x hx
          obtain ⟨fert, hfert, hbc⟩ := exists_src_of_mem_mapOption _ hmap hx
          obtain ⟨-, -, hf3⟩ := buildCandidate_fields hbc
          rw [hf3]
          exact hnone fert hfert
        have haff : affordableOf (sortByScoreDesc L) (some b) = [] := by
          simp only [affordableOf]
          rw [if_pos hb, List.filter_eq_nil_iff]
          intro x hx
          simpa using hLcost x ((List.perm_insertionSort scoreGe L).subset hx)
        simp only [assemble, haff, List.isEmpty_nil, if_pos] at h
        rw [head?_take_three] at h
        cases hbc2 : sortByCostAsc (sortByScoreDesc L) with
        | nil => rw [hbc2] at h; simp at h
        | cons a t =>
          rw [hbc2] at h
          simp only [List.head?_cons] at h
          have hr := RecResult.ok.inj (Option.some_inj.mp h)
          have hmin : ∀ x ∈ L, a.total_cost ≤ x.total_cost := by
            intro x hx
            exact head?_sortByCostAsc_min (L := sortByScoreDesc L)
              (by rw [hbc2]; rfl) ((List.perm_insertionSort scoreGe L).symm.subset hx)
          intro fert hfert
          obtain ⟨x, hxL, hbcx⟩ := exists_tgt_of_mem_mapOption _ hmap hfert
          obtain ⟨-, -, hf3⟩ := buildCandidate_fields hbcx
          rw [← hr]
          show a.total_cost ≤ _
          rw [← hf3]
          exact hmin x hxL

/-- Concrete instantiation of `unaffordable_fallback_picks_cheapest`: with a
budget of 1 and a single candidate costing 100, the fallback primary is that
cheapest candidate. -/
theorem unaffordable_fallback_witness :
    (1 : ℚ) ≠ 0 ∧
      (∀ fert ∈ demoFerts,
        ¬ (round2 (get_fertilizer_rate fert.product_name 2 * fert.price_per_kg) ≤ 1)) ∧
      demoRunTightBudget = some (.ok (okOf demoRunTightBudget)) ∧
      (∀ fert ∈ demoFerts,
        (okOf demoRunTightBudget).primary_recommendation.total_cost ≤
          round2 (get_fertilizer_rate fert.product_name 2 * fert.price_per_kg)) :=
  ⟨by norm_num, by decide, by decide,
    unaffordable_fallback_picks_cheapest demoCrops demoSoils demoFerts "Maize" "Loam" 2 1
      (by norm_num) (by decide) (okOf demoRunTightBudget) (by decide)⟩

theorem get_fertilizer_rate_neg (name : String) (farm : ℚ) (h : farm < 0) :
    get_fertilizer_rate name farm < 0 := by
  simp only [get_fertilizer_rate]
  cases hf : standard_rates.find? (fun kr => containsSeq (upperChars kr.1) (upperChars name)) with
  | none => exact mul_neg_of_pos_of_neg (by norm_num) h
  | some kr =>
    have hmem := List.mem_of_find?_eq_some hf
    have hkr : kr.2 = 50 ∨ kr.2 = 2000 := by
      simp only [standard_rates, List.mem_cons, List.not_mem_nil, or_false] at hmem
      rcases hmem with h1 | h1 | h1 | h1 | h1 | h1 | h1 <;> subst h1 <;> simp
    show kr.2 * farm < 0
    rcases hkr with h2 | h2 <;> rw [h2] <;> exact mul_neg_of_pos_of_neg (by norm_num) h

theorem assemble_isSome_ok (crop : Crop) (soil : Soil) (farm : ℚ) (budget : Option ℚ)
    {L : List Scored} (hL : L ≠ []) :
    ∃ r, assemble crop soil farm budget L = some (.ok r) := by
  have hLpos : 0 < L.length := List.length_pos.mpr hL
  have hc_len : (sortByCostAsc (sortByScoreDesc L)).length = L.length := by
    show (List.insertionSort costLe (List.insertionSort scoreGe L)).length = L.length
    rw [(List.perm_insertionSort costLe _).length_eq,
      (List.perm_insertionSort scoreGe L).length_eq]
  simp only [assemble]
  by_cases hfb : (affordableOf (sortByScoreDesc L) budget).isEmpty = true
  · rw [if_pos hfb, if_pos hfb]
    cases hbc : sortByCostAsc (sortByScoreDesc L) with
    | nil =>
      rw [hbc] at hc_len
      rw [← hc_len] at hLpos
      exact absurd hLpos (by simp)
    | cons a t =>
      rw [head?_take_three]
      simp only [List.head?_cons]
      exact ⟨_, rfl⟩
  · rw [if_neg hfb, if_neg hfb]
    cases haf : affordableOf (sortByScoreDesc L) budget with
    | nil => rw [haf] at hfb; simp at hfb
    | cons a t =>
      simp only [List.head?_cons]
      exact ⟨_, rfl⟩

/-- C5 (amended): a strictly negative farm size is tolerated — the engine
completes and the primary quantity (`rate_per_acre * farm_size`) propagates
as a negative number.  (A farm size of exactly zero instead faults; see the
counterexample below.) -/
theorem negative_farm_size_propagates (crops : List Crop) (soils : List Soil)
    (fertilizers : List Fertilizer) (crop_name soil_type : String) (farm_size_acres : ℚ)
    (budget_total : Option ℚ) (crop : Crop) (soil : Soil)
    (hc : get_crop_by_name crops crop_name = some crop)
    (hso : get_soil_by_type soils soil_type = some soil)
    (hreq : crop.nitrogen_requirement + crop.phosphorus_requirement +
      crop.potassium_requirement ≠ 0)
    (hferts : fertilizers ≠ [])
    (hfarm : farm_size_acres < 0) :
    ∃ r, get_recommendation crops soils fertilizers crop_name soil_type farm_size_acres
        budget_total = some (.ok r) ∧ r.primary_recommendation.quantity_kg < 0 := by
  have hfarm0 : farm_size_acres ≠ 0 := ne_of_lt hfarm
  obtain ⟨L, hmap⟩ := mapOption_isSome
    (buildCandidate crop (budget_per_kg_of budget_total farm_size_acres) farm_size_acres)
    fertilizers (fun fert _ => by
      obtain ⟨x, hx⟩ := buildCandidate_isSome crop
        (budget_per_kg_of budget_total farm_size_acres) farm_size_acres fert hreq hfarm0
      rw [hx]; rfl)
  obtain ⟨f0, hf0⟩ : ∃ f, f ∈ fertilizers := by
    cases fertilizers with
    | nil => exact absurd rfl hferts
    | cons f fs => exact ⟨f, List.mem_cons_self f fs⟩
  obtain ⟨x0, hx0L, -⟩ := exists_tgt_of_mem_mapOption _ hmap hf0
  have hLne : L ≠ [] := by
    intro hnil
    rw [hnil] at hx0L
    exact List.not_mem_nil x0 hx0L
  obtain ⟨r, hass⟩ := assemble_isSome_ok crop soil farm_size_acres budget_total hLne
  obtain ⟨top, htopL, hprim, -⟩ := assemble_ok_top hass
  refine ⟨r, ?_, ?_⟩
  · simp only [get_recommendation, hc, hso, hmap]
    exact hass
  · rw [hprim]
    obtain ⟨fert, hfert, hbc⟩ := exists_src_of_mem_mapOption _ hmap htopL
    obtain ⟨-, hf2, -⟩ := buildCandidate_fields hbc
    show top.application_rate_kg < 0
    rw [hf2]
    exact get_fertilizer_rate_neg fert.product_name farm_size_acres hfarm

/-- C5 counterexample: a farm size of exactly zero is NOT tolerated — with a
nonempty catalog the source divides `total_cost` by `farm_size_acres` when
building `cost_per_acre` (recommender.py line 101) and raises
`ZeroDivisionError`, so the engine yields no result. -/
theorem zero_farm_size_faults :
    get_recommendation demoCrops demoSoils demoFerts "Maize" "Loam" 0 none = none := by
  decide

/-- Concrete instantiation of `negative_farm_size_propagates`. -/
theorem negative_farm_size_witness :
    get_crop_by_name demoCrops "Maize" = some demoCrop ∧
      get_soil_by_type demoSoils "Loam" = some demoSoil ∧
      demoCrop.nitrogen_requirement + demoCrop.phosphorus_requirement +
        demoCrop.potassium_requirement ≠ 0 ∧
      demoFerts ≠ [] ∧ (-1 : ℚ) < 0 ∧
      (∃ r, demoRunNegativeFarm = some (.ok r) ∧
        r.primary_recommendation.quantity_kg < 0) :=
  ⟨by decide, by decide, by decide, by decide, by norm_num,
    negative_farm_size_propagates demoCrops demoSoils demoFerts "Maize" "Loam" (-1) none
      demoCrop demoSoil (by decide) (by decide) (by decide) (by decide) (by norm_num)⟩

end FertilizerAI
